import Mathlib

/-!
Shallow embedding of `src/primer/skiplist.cpp` (BusTub skip list).

The C++ unit implements a skip list over a key type `K`, a comparator
`Compare`, a compile-time `MaxHeight` and a random `Seed`.  The file under
`src/` explicitly instantiates `SkipList<int>` (with `std::less<int>`), so the
embedding fixes `K := Int` and `compare_ a b := a < b`, and keeps `MaxHeight`
as an explicit parameter.

Nodes are `shared_ptr`-linked; we model the heap as an arena (`nodes : List
SkipNode`) indexed by `Nat`, with `Option Nat` playing the role of
`std::shared_ptr<SkipNode>` (`none` is `nullptr`).  The header sentinel is the
node at index 0.  Reads of a null pointer, out-of-range `std::vector` accesses
(`links_[level]`, `update[i]`) and non-terminating traversals are undefined
behaviour in the C++ source; the embedding surfaces them as explicit `CppErr`
values so that theorems can talk about where the source misbehaves.

All loops are written as fuel recursion; the fuel budgets are chosen so that
every in-bounds traversal of an acyclic list completes, and running out of
fuel is reported as its own `CppErr` (it stands for a traversal that never
finishes).
-/

namespace bustub

/-- Undefined behaviour observed while running the embedded code:
dereferencing a null `shared_ptr`, an out-of-range `std::vector` access, or a
traversal that exceeds its fuel (a loop that never finishes). -/
inductive CppErr where
  | nullDeref
  | oob
  | outOfFuel

/-- One `SkipNode`: its key and its forward links `links_`, one per level the
node participates in (`none` models `nullptr`).  A node is identified by its
index in the owning list's arena. -/
structure SkipNode where
  key_ : Int
  links_ : List (Option Nat)

/-- The skip-list state: the node arena (the header sentinel is index 0), the
maintained element count `size_`, and the number of draws taken so far from
the random source (`rng_` itself is modelled as a stream passed separately). -/
structure SkipList where
  nodes : List SkipNode
  size_ : Nat
  rngIdx : Nat

/-- Dereference a `shared_ptr<SkipNode>`: `nullptr` (or a dangling index,
which never occurs on states built by the operations) is undefined
behaviour. -/
def derefNode (st : SkipList) (p : Option Nat) : Except CppErr SkipNode :=
  match p with
  | none => .error .nullDeref
  | some i =>
    match st.nodes.get? i with
    | some n => .ok n
    | none => .error .nullDeref

/-- `SkipNode::Next(level)`: returns `links_[level]`; `std::vector::operator[]`
out of range is undefined behaviour. -/
def SkipNode.Next (n : SkipNode) (level : Nat) : Except CppErr (Option Nat) :=
  match n.links_.get? level with
  | some p => .ok p
  | none => .error .oob

/-- `SkipNode::SetNext(level, node)`: writes `links_[level]`. -/
def SkipNode.SetNext (n : SkipNode) (level : Nat) (p : Option Nat) :
    Except CppErr SkipNode :=
  if level < n.links_.length then .ok { n with links_ := n.links_.set level p }
  else .error .oob

/-- Write node `i` back into the arena (the effect of mutating a node through
a shared pointer). -/
def setNode (st : SkipList) (i : Nat) (n : SkipNode) : SkipList :=
  { st with nodes := st.nodes.set i n }

/-- The comparator of the in-source instantiation `SkipList<int>`:
`std::less<int>`. -/
def compare_ (a b : Int) : Bool := decide (a < b)

/-- A `size_t` decrement: `i--` wraps around to `2 ^ 64 - 1` below zero. -/
def decSizeT (i : Nat) : Nat := if i = 0 then 2 ^ 64 - 1 else i - 1

/-- `SkipList::Empty`: `header_->Next(LOWEST_LEVEL) == nullptr` (the lowest
level is level 0). -/
def Empty (st : SkipList) : Except CppErr Bool := do
  let h ← derefNode st (some 0)
  let p ← h.Next 0
  return p.isNone

/-- `SkipList::Size`: returns the maintained counter `size_`. -/
def Size (st : SkipList) : Nat := st.size_

/-- Inner `while` of `SkipList::Contains` at level `i`, starting from pointer
`p`: advance while the key is larger than the node's key; `ok true` models
`return true` (an equivalent key was found), `ok false` models falling out of
the `while` (null link or break on a larger key). -/
def containsScan (st : SkipList) (key : Int) (i : Nat) (p : Option Nat) :
    Nat → Except CppErr Bool
  | 0 => .error .outOfFuel
  | fuel + 1 =>
    match p with
    | none => .ok false
    | some nid =>
      match derefNode st (some nid) with
      | .error e => .error e
      | .ok n =>
        if !compare_ key n.key_ && !compare_ n.key_ key then .ok true
        else if compare_ key n.key_ then .ok false
        else
          match n.Next i with
          | .error e => .error e
          | .ok p1 => containsScan st key i p1 fuel

/-- Outer `for (size_t i = MaxHeight - 1; i >= 0; i--)` of `Contains`: the
counter is a `size_t`, so `i >= 0` always holds and after level 0 the counter
wraps around to `2 ^ 64 - 1`; the loop can only exit by returning `true` or by
undefined behaviour. -/
def containsLoop (st : SkipList) (key : Int) (i : Nat) :
    Nat → Except CppErr Bool
  | 0 => .error .outOfFuel
  | fuel + 1 =>
    match derefNode st (some 0) with
    | .error e => .error e
    | .ok h =>
      match h.Next i with
      | .error e => .error e
      | .ok start =>
        match containsScan st key i start (st.nodes.length + 1) with
        | .error e => .error e
        | .ok found =>
          if found then .ok true
          else containsLoop st key (decSizeT i) fuel

/-- `SkipList::Contains`.  The outer-loop fuel `MaxHeight + 1` is exactly
enough to run the `MaxHeight` in-range iterations plus the wrapped-around
iteration in which the source indexes `links_[2 ^ 64 - 1]`. -/
def Contains (MaxHeight : Nat) (st : SkipList) (key : Int) :
    Except CppErr Bool :=
  containsLoop st key (decSizeT MaxHeight) (MaxHeight + 1)

/-- Modelled from the spec: `rng_` is the list-owned seeded random source,
constructed in `skiplist.h`, which is not under `src/`.  The spec requires a
deterministic stream of draws fixed by the seed, so the embedding passes the
stream of draw values as a function from draw index to value. -/
abbrev RngStream := Nat → Nat

/-- While-loop of `SkipList::RandomHeight`: `while (height < MaxHeight &&
rng_() % 4 == 0) height++;`.  Each evaluation of the condition with
`height < MaxHeight` consumes one draw.  The loop body can run at most
`MaxHeight - 1` times, so fuel `MaxHeight` makes the fuel recursion exact. -/
def randomHeightLoop (rng : RngStream) (MaxHeight : Nat) (height idx : Nat) :
    Nat → Nat × Nat
  | 0 => (height, idx)
  | fuel + 1 =>
    if height < MaxHeight then
      if rng idx % 4 == 0 then
        randomHeightLoop rng MaxHeight (height + 1) (idx + 1) fuel
      else (height, idx + 1)
    else (height, idx)

/-- `SkipList::RandomHeight`: starts at height 1 and grows with probability
1/4 per level (branching factor 4), capped at `MaxHeight`.  Returns the height
together with the advanced draw index. -/
def RandomHeight (rng : RngStream) (MaxHeight : Nat) (idx : Nat) : Nat × Nat :=
  randomHeightLoop rng MaxHeight 1 idx MaxHeight

/-- Result of a mutating operation: the returned value together with the state
after the call, or, on undefined behaviour, the error together with the state
at the point where it occurred. -/
abbrev SRes (α : Type) := Except (CppErr × SkipList) (α × SkipList)

/-- State at the end of a stateful run: the state returned on a normal exit,
or the state at the undefined-behaviour point. -/
def endSt {α : Type} : SRes α → SkipList
  | .error es => es.2
  | .ok as => as.2

/-- Returned value of a stateful run, when it returned normally. -/
def resVal {α : Type} : SRes α → Option α
  | .error _ => none
  | .ok as => some as.1

/-- Error of a stateful run, if it hit undefined behaviour. -/
def resErr {α : Type} : SRes α → Option CppErr
  | .error es => some es.1
  | .ok _ => none

/-- Conditional unlink step inside Erase's inner `while`: if the successor
`node->Next(i)` holds a key equivalent to `key`, relink
`node->SetNext(i, node->Next(i)->Next(i))`.  `n` is node `nid` as read from
`st`, `nx` is its already-dereferenced successor. -/
def eraseUnlinkStep (key : Int) (i : Nat) (st : SkipList) (nid : Nat)
    (n nx : SkipNode) : Except (CppErr × SkipList) SkipList :=
  if !compare_ key nx.key_ && !compare_ nx.key_ key then
    match nx.Next i with
    | .error e => .error (e, st)
    | .ok skipP =>
      match n.SetNext i skipP with
      | .error e => .error (e, st)
      | .ok n1 => .ok (setNode st nid n1)
  else .ok st

/-- Inner `while (node != nullptr)` of `SkipList::Erase` at level `i`.  Note
the source evaluates `node->Next(i)->Key()` before any null check, so an
absent successor link is dereferenced; after a possible unlink it checks the
break condition against `node->Key()` and advances along the (possibly just
updated) link. -/
def eraseScan (key : Int) (i : Nat) (st : SkipList) (p : Option Nat) :
    Nat → SRes Unit
  | 0 => .error (.outOfFuel, st)
  | fuel + 1 =>
    match p with
    | none => .ok ((), st)
    | some nid =>
      match derefNode st (some nid) with
      | .error e => .error (e, st)
      | .ok n =>
        match n.Next i with
        | .error e => .error (e, st)
        | .ok nextP =>
          match derefNode st nextP with
          | .error e => .error (e, st)
          | .ok nx =>
            match eraseUnlinkStep key i st nid n nx with
            | .error e => .error e
            | .ok st1 =>
              if compare_ key n.key_ then .ok ((), st1)
              else
                match derefNode st1 (some nid) with
                | .error e => .error (e, st1)
                | .ok n2 =>
                  match n2.Next i with
                  | .error e => .error (e, st1)
                  | .ok p2 => eraseScan key i st1 p2 fuel

/-- Outer `for (size_t i = MaxHeight - 1; i >= 0; i--)` of `Erase`: as in
`Contains` the unsigned counter wraps around below zero, so the loop never
exits normally; each iteration restarts the scan from the header. -/
def eraseLoop (key : Int) (st : SkipList) (i : Nat) : Nat → SRes Unit
  | 0 => .error (.outOfFuel, st)
  | fuel + 1 =>
    match eraseScan key i st (some 0) (st.nodes.length + 1) with
    | .error e => .error e
    | .ok us =>
      eraseLoop key us.2 (decSizeT i) fuel

/-- `SkipList::Erase`: return false if `Contains` is false, otherwise run the
per-level unlink loop and return true.  Note the source never decrements
`size_`. -/
def Erase (MaxHeight : Nat) (st : SkipList) (key : Int) : SRes Bool :=
  match Contains MaxHeight st key with
  | .error e => .error (e, st)
  | .ok c =>
    if !c then .ok (false, st)
    else
      match eraseLoop key st (decSizeT MaxHeight) (MaxHeight + 1) with
      | .error e => .error e
      | .ok us => .ok (true, us.2)

/-- Inner `while` of `SkipList::Insert` at level `i`: advance `current` while
the next key is strictly less than `key`.  Inside the body the source checks
the duplicate and break conditions against `current->Key()` (the last node
known to be strictly less than `key`, or the header sentinel), not against the
successor that stopped the scan.  `foundDup` models `return false`. -/
inductive ScanRes where
  | foundDup
  | stop (nid : Nat)

/-- The scan itself; `cur` is always a non-null pointer in the source. -/
def insertScan (st : SkipList) (key : Int) (i : Nat) (cur : Nat) :
    Nat → Except CppErr ScanRes
  | 0 => .error .outOfFuel
  | fuel + 1 =>
    match derefNode st (some cur) with
    | .error e => .error e
    | .ok n =>
      match n.Next i with
      | .error e => .error e
      | .ok nextP =>
        match nextP with
        | none => .ok (.stop cur)
        | some nid =>
          match derefNode st (some nid) with
          | .error e => .error e
          | .ok nx =>
            if compare_ nx.key_ key then
              if !compare_ key n.key_ && !compare_ n.key_ key then
                .ok .foundDup
              else if compare_ key n.key_ then .ok (.stop cur)
              else insertScan st key i nid fuel
            else .ok (.stop cur)

/-- Descent loop of `Insert` over levels `k - 1` down to 0 (the source uses a
signed counter here, so it does stop at level 0).  Returns `none` when a
duplicate was detected (`Insert` returns false at once), otherwise the
`update` array indexed by level. -/
def insertDescent (st : SkipList) (key : Int) :
    Nat → Nat → Except CppErr (Option (List Nat))
  | 0, _ => .ok (some [])
  | k + 1, cur =>
    match insertScan st key k cur (st.nodes.length + 1) with
    | .error e => .error e
    | .ok .foundDup => .ok none
    | .ok (.stop cur1) =>
      match insertDescent st key k cur1 with
      | .error e => .error e
      | .ok none => .ok none
      | .ok (some ups) => .ok (some (ups ++ [cur1]))

/-- Read `update[i]` (`std::vector::operator[]`, out of range is undefined
behaviour). -/
def getUpdate (ups : List Nat) (i : Nat) : Except CppErr Nat :=
  match ups.get? i with
  | some u => .ok u
  | none => .error .oob

/-- Splice loop of `Insert` over levels `random_height - 1` down to 0:
`new_node->SetNext(i, update[i]->Next(i)); update[i]->SetNext(i, new_node);`
(again a signed counter, stopping at level 0). -/
def spliceLoop (newId : Nat) (ups : List Nat) (st : SkipList) :
    Nat → SRes Unit
  | 0 => .ok ((), st)
  | k + 1 =>
    match getUpdate ups k with
    | .error e => .error (e, st)
    | .ok u =>
      match derefNode st (some u) with
      | .error e => .error (e, st)
      | .ok un =>
        match un.Next k with
        | .error e => .error (e, st)
        | .ok upNext =>
          match derefNode st (some newId) with
          | .error e => .error (e, st)
          | .ok nn =>
            match nn.SetNext k upNext with
            | .error e => .error (e, st)
            | .ok nn1 =>
              match derefNode (setNode st newId nn1) (some u) with
              | .error e => .error (e, setNode st newId nn1)
              | .ok un2 =>
                match un2.SetNext k (some newId) with
                | .error e => .error (e, setNode st newId nn1)
                | .ok un3 =>
                  spliceLoop newId ups (setNode (setNode st newId nn1) u un3) k

/-- Allocation step of `Insert`: draw the height, advance the draw index and
append the freshly constructed node (`SkipNode(random_height, key)`, all links
null) to the arena.  The source allocates before the descent. -/
def insertAlloc (rng : RngStream) (MaxHeight : Nat) (st : SkipList)
    (key : Int) : SkipList :=
  ⟨st.nodes ++
      [⟨key, List.replicate (RandomHeight rng MaxHeight st.rngIdx).1 none⟩],
    st.size_, (RandomHeight rng MaxHeight st.rngIdx).2⟩

/-- `SkipList::Insert`: allocate the node, descend recording `update`, return
false at once if the descent reported a duplicate (the allocated node is
destroyed again, leaving the pre-call arena), otherwise splice the node in at
levels `0 .. random_height - 1` and increment `size_`. -/
def Insert (rng : RngStream) (MaxHeight : Nat) (st : SkipList) (key : Int) :
    SRes Bool :=
  match insertDescent (insertAlloc rng MaxHeight st key) key MaxHeight 0 with
  | .error e => .error (e, insertAlloc rng MaxHeight st key)
  | .ok none =>
    .ok (false, ⟨st.nodes, st.size_, (RandomHeight rng MaxHeight st.rngIdx).2⟩)
  | .ok (some ups) =>
    match spliceLoop st.nodes.length ups (insertAlloc rng MaxHeight st key)
        (RandomHeight rng MaxHeight st.rngIdx).1 with
    | .error e => .error e
    | .ok us => .ok (true, ⟨us.2.nodes, us.2.size_ + 1, us.2.rngIdx⟩)

/-- Inner `while` of `SkipList::Drop` at level `i`:
`curr = std::move(curr->links_[i])` reads the link and nulls it, detaching one
node at a time. -/
def dropChain (i : Nat) (st : SkipList) (p : Option Nat) : Nat → SRes Unit
  | 0 => .error (.outOfFuel, st)
  | fuel + 1 =>
    match p with
    | none => .ok ((), st)
    | some nid =>
      match derefNode st (some nid) with
      | .error e => .error (e, st)
      | .ok n =>
        match n.Next i with
        | .error e => .error (e, st)
        | .ok p1 =>
          match n.SetNext i none with
          | .error e => .error (e, st)
          | .ok n1 => dropChain i (setNode st nid n1) p1 fuel

/-- Outer loop of `SkipList::Drop` over levels `0 .. MaxHeight - 1`: move the
header's link at the level out (nulling it) and walk the detached chain. -/
def dropLevels (st : SkipList) : List Nat → SRes Unit
  | [] => .ok ((), st)
  | i :: rest =>
    match derefNode st (some 0) with
    | .error e => .error (e, st)
    | .ok h =>
      match h.Next i with
      | .error e => .error (e, st)
      | .ok p =>
        match h.SetNext i none with
        | .error e => .error (e, st)
        | .ok h1 =>
          match dropChain i (setNode st 0 h1) p
              ((setNode st 0 h1).nodes.length + 1) with
          | .error e => .error e
          | .ok us => dropLevels us.2 rest

/-- `SkipList::Drop`: iterative deallocation, level by level. -/
def Drop (MaxHeight : Nat) (st : SkipList) : SRes Unit :=
  dropLevels st (List.range MaxHeight)

/-- `SkipList::Clear`: just calls `Drop`; in particular `size_` is left
untouched. -/
def Clear (MaxHeight : Nat) (st : SkipList) : SRes Unit := Drop MaxHeight st

/-- Modelled from the spec: the `SkipList` constructor lives in `skiplist.h`,
which is not under `src/`.  Per the spec the header sentinel owns one forward
link per level `0 .. MaxHeight - 1`, all initially absent, there are no
resident nodes, and `size_` starts at 0.  The spec says the header "holds no
key", but the source does read `Key()` on the header (in Insert's duplicate
and break checks and in Erase's break check), so the model gives it the
value-initialized key `int()` = 0 that the in-source instantiation
`SkipList<int>` produces. -/
def initSkipList (MaxHeight : Nat) : SkipList :=
  ⟨[⟨0, List.replicate MaxHeight none⟩], 0, 0⟩

/-- Keys of the chain starting at pointer `p` at level `i`, in forward-link
order (the sequence `Print` walks at level 0). -/
def chainKeysFrom (st : SkipList) (i : Nat) (p : Option Nat) :
    Nat → Except CppErr (List Int)
  | 0 => .error .outOfFuel
  | fuel + 1 =>
    match p with
    | none => .ok []
    | some nid =>
      match derefNode st (some nid) with
      | .error e => .error e
      | .ok n =>
        match n.Next i with
        | .error e => .error e
        | .ok p1 =>
          match chainKeysFrom st i p1 fuel with
          | .error e => .error e
          | .ok rest => .ok (n.key_ :: rest)

/-- The level-0 chain visited in forward-link order from the header. -/
def level0Keys (st : SkipList) : Except CppErr (List Int) :=
  match derefNode st (some 0) with
  | .error e => .error e
  | .ok h =>
    match h.Next 0 with
    | .error e => .error e
    | .ok p => chainKeysFrom st 0 p (st.nodes.length + 1)

/-- A possible draw stream in which no draw is divisible by 4: every call to
`RandomHeight` yields height 1 (one draw per call). -/
def rngOnes : RngStream := fun _ => 1

/-- A possible draw stream in which every draw is divisible by 4: every call
to `RandomHeight` climbs to the `MaxHeight` cap. -/
def rngZeros : RngStream := fun _ => 0

/-!
Concrete runs used by the counterexample-style theorems.  They use
`MaxHeight = 2`; the parameter is a template argument in the source, the
defects exercised below do not depend on its value, and the small value keeps
the kernel evaluation of each run cheap.
-/

/-- Two consecutive calls `Insert(1)` on a fresh list, heights all 1. -/
def insertTwice : SRes Bool :=
  match Insert rngOnes 2 (initSkipList 2) 1 with
  | .error e => .error e
  | .ok bs => Insert rngOnes 2 bs.2 1

/-- `Insert(1)` (the node gets height 1) followed by `Erase(1)`. -/
def eraseAfterInsert : SRes Bool :=
  match Insert rngOnes 2 (initSkipList 2) 1 with
  | .error e => .error e
  | .ok bs => Erase 2 bs.2 1

/-- `Insert(2)` (the node gets height 1) followed by `Erase(2)`. -/
def eraseAfterInsertTwo : SRes Bool :=
  match Insert rngOnes 2 (initSkipList 2) 2 with
  | .error e => .error e
  | .ok bs => Erase 2 bs.2 2

/-- `Insert(1)` under the all-zero draw stream (the node gets the full height
`MaxHeight = 2`), followed by `Erase(1)`: every in-range level unlinks cleanly,
so the erase loop runs past level 0. -/
def eraseFullHeight : SRes Bool :=
  match Insert rngZeros 2 (initSkipList 2) 1 with
  | .error e => .error e
  | .ok bs => Erase 2 bs.2 1

/-- `Insert(-5)` followed by `Insert(0)`: the key 0 is absent, but equals the
header sentinel's value-initialized key. -/
def insertZeroAfterNeg : SRes Bool :=
  match Insert rngOnes 2 (initSkipList 2) (-5) with
  | .error e => .error e
  | .ok bs => Insert rngOnes 2 bs.2 0

/-- `Insert(7)` followed by `Clear()`. -/
def clearAfterInsert : SRes Unit :=
  match Insert rngOnes 2 (initSkipList 2) 7 with
  | .error e => .error e
  | .ok bs => Clear 2 bs.2

/-!
Claim theorems.
-/

/-- C1: the claimed invariant (level-0 chain is the ascending sort of the
resident keys, and no two resident nodes hold equivalent keys) fails.  After
the call sequence `Insert(1); Insert(1)` from a fresh list both calls return
true and the level-0 chain visited in forward-link order is `[1, 1]`: two
resident nodes hold equivalent keys.  Insert's duplicate check compares `key`
with `current->Key()` — a node already known to be strictly less than `key`
(or the header) — and never with the successor that stopped the scan, so an
equivalent resident key is not detected. -/
theorem c1_level0_duplicate_bug :
    resVal insertTwice = some true ∧
      level0Keys (endSt insertTwice) = .ok [1, 1] :=
  ⟨rfl, rfl⟩

/-- C2: duplicate `Insert` is not an atomic no-op.  The second `Insert(1)`
returns true, bumps `size_` from 1 to 2 and links a second node with key 1
(the arena grows to header plus two resident nodes).  Also `Erase` on an
absent key does not return false with no mutation: it calls `Contains`, whose
wrapped-around level counter indexes `links_[2 ^ 64 - 1]` out of bounds. -/
theorem c2_duplicate_insert_mutates :
    resVal insertTwice = some true ∧
      (endSt insertTwice).size_ = 2 ∧
      (endSt insertTwice).nodes.length = 3 ∧
      resErr (Erase 2 (initSkipList 2) 3) = some .oob :=
  ⟨rfl, rfl, rfl, rfl⟩

/-- C3: `Erase` on a present key does not return true, does not decrement
`size_` (no decrement exists in the source), and does not unlink the node.
With one resident node of height 1, `Erase(1)` starts at level
`MaxHeight - 1 = 1`, where the header's forward link is absent, and evaluates
`node->Next(i)->Key()` on that null link: a null dereference.  The node is
still on the level-0 chain at the failure point and `size_` is still 1. -/
theorem c3_erase_null_deref :
    resErr eraseAfterInsert = some .nullDeref ∧
      resVal eraseAfterInsert = none ∧
      (endSt eraseAfterInsert).size_ = 1 ∧
      level0Keys (endSt eraseAfterInsert) = .ok [1] :=
  ⟨rfl, rfl, rfl, rfl⟩

/-- C4: `Contains` on a key with no equivalent resident node never returns
false.  On the empty list, `Contains(0)` exhausts levels 1 down to 0 without
finding anything, then the `size_t` level counter wraps around to
`2 ^ 64 - 1` and `header_->Next(i)` reads `links_[2 ^ 64 - 1]` out of
bounds. -/
theorem c4_contains_absent_oob :
    Contains 2 (initSkipList 2) 0 = .error .oob :=
  rfl

/-- C5: `Insert` on a key with no equivalent resident node can return false
and insert nothing.  With -5 resident and the header's key value-initialized
to 0, `Insert(0)` enters the level-0 scan (the next key -5 is less than 0),
finds `current->Key() = 0` equivalent to the new key while `current` is still
the header sentinel, and aborts: it returns false, the chain stays `[-5]` and
`size_` stays 1, although 0 was never resident. -/
theorem c5_fresh_insert_returns_false :
    resVal insertZeroAfterNeg = some false ∧
      level0Keys (endSt insertZeroAfterNeg) = .ok [-5] ∧
      (endSt insertZeroAfterNeg).size_ = 1 :=
  ⟨rfl, rfl, rfl⟩

/-- C6: the top-to-bottom descent of `Erase` does not stop at level 0.  With a
single resident node of full height 2, `Erase(1)` unlinks it at every in-range
level 1..0, then decrements the `size_t` counter past 0, wrapping to
`2 ^ 64 - 1`, and reads `links_[2 ^ 64 - 1]` out of bounds instead of
terminating: the call never returns. -/
theorem c6_erase_descends_past_level0 :
    resErr eraseFullHeight = some .oob ∧ resVal eraseFullHeight = none :=
  ⟨rfl, rfl⟩

/-- C7: `Erase`'s per-level unlink step dereferences an absent forward link.
With one resident node of height 1, at level 1 the header's forward link is
absent, yet the source evaluates `node->Next(i)->Key()` before any presence
check instead of skipping the level: a null dereference. -/
theorem c7_erase_absent_link_deref :
    resErr eraseAfterInsertTwo = some .nullDeref :=
  rfl

/-- C8: after `Clear()` the list is not fully reset: `Clear` only calls
`Drop`, which nulls all links, so `Empty()` is true, but `size_` is never
reset and `Size()` still returns 1 after inserting one key and clearing. -/
theorem c8_clear_size_stale :
    Empty (endSt clearAfterInsert) = .ok true ∧
      Size (endSt clearAfterInsert) = 1 :=
  ⟨rfl, rfl⟩

/-!
RandomHeight: bounds and reproducibility (claim C9).
-/

/-- The while-loop of `RandomHeight` never decreases the height. -/
theorem randomHeightLoop_ge (rng : RngStream) (MaxHeight : Nat) :
    ∀ fuel height idx,
      height ≤ (randomHeightLoop rng MaxHeight height idx fuel).1 := by
  intro fuel
  induction fuel with
  | zero => intro height idx; exact Nat.le_refl _
  | succ fuel ih =>
    intro height idx
    simp only [randomHeightLoop]
    split
    · split
      · exact Nat.le_trans (Nat.le_succ height) (ih (height + 1) (idx + 1))
      · exact Nat.le_refl _
    · exact Nat.le_refl _

/-- The while-loop of `RandomHeight` keeps the height at most `MaxHeight`
whenever it starts there: the loop guard `height < MaxHeight` caps growth. -/
theorem randomHeightLoop_le (rng : RngStream) (MaxHeight : Nat) :
    ∀ fuel height idx, height ≤ MaxHeight →
      (randomHeightLoop rng MaxHeight height idx fuel).1 ≤ MaxHeight := by
  intro fuel
  induction fuel with
  | zero => intro height idx h; exact h
  | succ fuel ih =>
    intro height idx h
    simp only [randomHeightLoop]
    split
    · split
      · next hlt _ => exact ih (height + 1) (idx + 1) hlt
      · exact h
    · exact h

/-- C9: `RandomHeight` starts at height 1 and increments it once per fresh
draw divisible by the branching factor 4, stopping at the `MaxHeight` cap, so
when `MaxHeight ≥ 1` the returned height `h` satisfies `1 ≤ h ≤ MaxHeight`;
and the result is a function of the draw stream alone, so two lists whose
seeded sources produce the same draws (in particular, the same seed) get the
same reproducible height sequence. -/
theorem c9_randomHeight_bounds_reproducible (rng rng2 : RngStream)
    (MaxHeight idx : Nat) (h1 : 1 ≤ MaxHeight)
    (hsame : ∀ n, rng n = rng2 n) :
    1 ≤ (RandomHeight rng MaxHeight idx).1 ∧
      (RandomHeight rng MaxHeight idx).1 ≤ MaxHeight ∧
      RandomHeight rng MaxHeight idx = RandomHeight rng2 MaxHeight idx := by
  refine ⟨?_, ?_, ?_⟩
  · exact randomHeightLoop_ge rng MaxHeight MaxHeight 1 idx
  · exact randomHeightLoop_le rng MaxHeight MaxHeight 1 idx h1
  · have he : rng = rng2 := funext hsame
    rw [he]

/-- Witness for C9 at the concrete stream `rngOnes`, `MaxHeight = 8`,
draw index 0. -/
theorem c9_witness :
    1 ≤ (RandomHeight rngOnes 8 0).1 ∧
      (RandomHeight rngOnes 8 0).1 ≤ 8 ∧
      RandomHeight rngOnes 8 0 = RandomHeight rngOnes 8 0 :=
  c9_randomHeight_bounds_reproducible rngOnes rngOnes 8 0 (by decide)
    (fun _ => rfl)
/-!
Size framing (claim C10): no operation but `Insert` ever writes `size_`.
Every state update in `Erase`, `Clear` and the splice phase of `Insert` goes
through `setNode`, which rewrites one arena slot and leaves `size_` alone.
-/

/-- `setNode` leaves `size_` unchanged. -/
theorem setNode_size (st : SkipList) (i : Nat) (n : SkipNode) :
    (setNode st i n).size_ = st.size_ := rfl

/-- State reached by a step that returns a plain state. -/
def endStE : Except (CppErr × SkipList) SkipList → SkipList
  | .error es => es.2
  | .ok s => s

/-- The conditional unlink step leaves `size_` unchanged, in both the normal
and the undefined-behaviour outcome. -/
theorem eraseUnlinkStep_size (key : Int) (i : Nat) (st : SkipList) (nid : Nat)
    (n nx : SkipNode) :
    (endStE (eraseUnlinkStep key i st nid n nx)).size_ = st.size_ := by
  unfold eraseUnlinkStep
  split
  · split
    · rfl
    · split
      · rfl
      · rfl
  · rfl

/-- Erase's inner scan leaves `size_` unchanged. -/
theorem eraseScan_size (key : Int) (i : Nat) :
    ∀ fuel st p, (endSt (eraseScan key i st p fuel)).size_ = st.size_ := by
  intro fuel
  induction fuel with
  | zero => intro st p; rfl
  | succ fuel ih =>
    intro st p
    cases p with
    | none => rfl
    | some nid =>
      simp only [eraseScan]
      split
      · rfl
      rename_i n hn
      split
      · rfl
      rename_i nextP hnext
      split
      · rfl
      rename_i nx hnx
      split
      · rename_i es heq
        have hu := eraseUnlinkStep_size key i st nid n nx
        rw [heq] at hu
        exact hu
      rename_i st1 heq
      have hu := eraseUnlinkStep_size key i st nid n nx
      rw [heq] at hu
      split
      · exact hu
      split
      · exact hu
      rename_i n2 hn2
      split
      · exact hu
      rename_i p2 hp2
      rw [ih st1 p2]
      exact hu

/-- Erase's outer level loop leaves `size_` unchanged. -/
theorem eraseLoop_size (key : Int) :
    ∀ fuel st i, (endSt (eraseLoop key st i fuel)).size_ = st.size_ := by
  intro fuel
  induction fuel with
  | zero => intro st i; rfl
  | succ fuel ih =>
    intro st i
    have h1 := eraseScan_size key i (st.nodes.length + 1) st (some 0)
    simp only [eraseLoop]
    split
    · rename_i es heq
      rw [heq] at h1
      exact h1
    rename_i us heq
    rw [heq] at h1
    rw [ih us.2 (decSizeT i)]
    exact h1

/-- Drop's inner chain walk leaves `size_` unchanged. -/
theorem dropChain_size (i : Nat) :
    ∀ fuel st p, (endSt (dropChain i st p fuel)).size_ = st.size_ := by
  intro fuel
  induction fuel with
  | zero => intro st p; rfl
  | succ fuel ih =>
    intro st p
    cases p with
    | none => rfl
    | some nid =>
      simp only [dropChain]
      split
      · rfl
      rename_i n hn
      split
      · rfl
      rename_i p1 hp1
      split
      · rfl
      rename_i n1 hs
      exact ih (setNode st nid n1) p1

/-- Drop's level loop leaves `size_` unchanged. -/
theorem dropLevels_size :
    ∀ levels st, (endSt (dropLevels st levels)).size_ = st.size_ := by
  intro levels
  induction levels with
  | nil => intro st; rfl
  | cons i rest ih =>
    intro st
    simp only [dropLevels]
    split
    · rfl
    rename_i h hh
    split
    · rfl
    rename_i p hp
    split
    · rfl
    rename_i h1 hs
    have h2 := dropChain_size i ((setNode st 0 h1).nodes.length + 1)
      (setNode st 0 h1) p
    split
    · rename_i es hd
      rw [hd] at h2
      exact h2
    rename_i us hd
    rw [hd] at h2
    rw [ih us.2]
    exact h2

/-- Insert's splice loop leaves `size_` unchanged. -/
theorem spliceLoop_size (newId : Nat) (ups : List Nat) :
    ∀ k st, (endSt (spliceLoop newId ups st k)).size_ = st.size_ := by
  intro k
  induction k with
  | zero => intro st; rfl
  | succ k ih =>
    intro st
    simp only [spliceLoop]
    split
    · rfl
    rename_i u hu
    split
    · rfl
    rename_i un hun
    split
    · rfl
    rename_i upNext hnext
    split
    · rfl
    rename_i nn hnn
    split
    · rfl
    rename_i nn1 hset
    split
    · rfl
    rename_i un2 hun2
    split
    · rfl
    rename_i un3 hset2
    exact ih (setNode (setNode st newId nn1) u un3)

/-- When `Insert` hits undefined behaviour, the state at the failure point
still carries the original `size_` (the increment is the very last step). -/
theorem insert_size_err (rng : RngStream) (MaxHeight : Nat) (st : SkipList)
    (key : Int) :
    ∀ es, Insert rng MaxHeight st key = .error es → es.2.size_ = st.size_ := by
  intro es hI
  simp only [Insert] at hI
  split at hI
  · injection hI with h
    rw [← h]
    rfl
  · exact Except.noConfusion hI
  · rename_i ups hd
    have hu := spliceLoop_size st.nodes.length ups
      ((RandomHeight rng MaxHeight st.rngIdx).1)
      (insertAlloc rng MaxHeight st key)
    split at hI
    · rename_i es2 heq
      injection hI with h
      rw [← h]
      rw [heq] at hu
      exact hu
    · exact Except.noConfusion hI

/-- When `Insert` returns normally, the new `size_` is the old one plus 1
exactly when the call returned true. -/
theorem insert_size_ok (rng : RngStream) (MaxHeight : Nat) (st : SkipList)
    (key : Int) :
    ∀ b st1, Insert rng MaxHeight st key = .ok (b, st1) →
      st1.size_ = st.size_ + (if b then 1 else 0) := by
  intro b st1 hI
  simp only [Insert] at hI
  split at hI
  · exact Except.noConfusion hI
  · injection hI with h
    injection h with hb hst
    rw [← hb, ← hst]
    rfl
  · rename_i ups hd
    have hu := spliceLoop_size st.nodes.length ups
      ((RandomHeight rng MaxHeight st.rngIdx).1)
      (insertAlloc rng MaxHeight st key)
    split at hI
    · exact Except.noConfusion hI
    · rename_i us heq
      injection hI with h
      injection h with hb hst
      rw [heq] at hu
      have h3 : us.2.size_ = st.size_ := hu
      rw [← hb, ← hst]
      show us.2.size_ + 1 = st.size_ + 1
      rw [h3]

/-- C10: only `Insert` ever changes the size counter.  For every state and
key, `Erase` and `Clear` end (whether by normal return or at their
undefined-behaviour point) in a state with the same `size_` as before — the
source of `Erase` contains no decrement and `Clear` never resets the counter
— while `Insert` ends with `size_ + 1` exactly when it returns true and with
the old `size_` otherwise.  `Contains`, `Empty` and `Size` take the state
read-only (their embeddings return no state because the source performs no
write through any link). -/
theorem c10_size_frame (rng : RngStream) (MaxHeight : Nat) (st : SkipList)
    (key : Int) :
    (endSt (Erase MaxHeight st key)).size_ = st.size_ ∧
      (endSt (Clear MaxHeight st)).size_ = st.size_ ∧
      (endSt (Insert rng MaxHeight st key)).size_ =
        st.size_ +
          (if resVal (Insert rng MaxHeight st key) = some true then 1
           else 0) := by
  refine ⟨?_, ?_, ?_⟩
  · simp only [Erase]
    split
    · rfl
    rename_i c hc
    split
    · rfl
    have h1 := eraseLoop_size key (MaxHeight + 1) st (decSizeT MaxHeight)
    split
    · rename_i es heq
      rw [heq] at h1
      exact h1
    rename_i us heq
    rw [heq] at h1
    exact h1
  · exact dropLevels_size (List.range MaxHeight) st
  · cases hI : Insert rng MaxHeight st key with
    | error es =>
      have h1 := insert_size_err rng MaxHeight st key es hI
      exact h1.trans (Nat.add_zero _).symm
    | ok bs =>
      obtain ⟨b, st1⟩ := bs
      have h1 := insert_size_ok rng MaxHeight st key b st1 hI
      cases b
      · exact h1
      · exact h1

end bustub
